import Mathlib

/-!
Verification of the SOCKS client protocol engine (`rust-socks`).

The development shallowly embeds the protocol core of the crate:
the address model (`TargetAddr`, `ToTargetAddr`) and SOCKS4 engine from
`src/lib.rs`, and the SOCKS5 engine (`read_addr`, `read_response`,
`write_addr`, `Socks5Stream::connect_raw`, `Socks5Listener`,
`Socks5Datagram`) from `src/v5.rs`.

Bytes are `Nat`s (values of Rust `u8`); byte streams are `List Nat`
consumed from the front.  Fallible operations return `Except IoError`.
The connect functions additionally produce a trace of transport-level
I/O events (`connect`, `write`, `read`), so that statements about what
happens "before any I/O" are expressible.
-/

namespace Socks

/-- The `std::io::ErrorKind` values used by the crate. -/
inductive ErrorKind where
  | invalidInput
  | invalidData
  | permissionDenied
  | other
  | unexpectedEof
  deriving DecidableEq, Repr

/-- A `std::io::Error`: a kind together with the message the crate attaches. -/
structure IoError where
  kind : ErrorKind
  msg : String
  deriving DecidableEq, Repr

/-- Error produced by `read_exact`/`read_u8` at end of stream. -/
def eofError : IoError := ⟨.unexpectedEof, "failed to fill whole buffer"⟩

/-- Model of `byteorder` big-endian serialization of a `u16` value. -/
def writeU16BE (n : Nat) : List Nat := [n / 256 % 256, n % 256]

/-- Model of `byteorder` big-endian serialization of a `u32` value. -/
def writeU32BE (n : Nat) : List Nat :=
  [n / 16777216 % 256, n / 65536 % 256, n / 256 % 256, n % 256]

/-- Model of `read_u8`: consume one byte.  Returns the result and the remaining
stream (empty on end-of-stream). -/
def readU8 : List Nat → Except IoError Nat × List Nat
  | [] => (.error eofError, [])
  | b :: rest => (.ok b, rest)

/-- Model of `read_u16::<BigEndian>`: consume two bytes. -/
def readU16BE : List Nat → Except IoError Nat × List Nat
  | b1 :: b2 :: rest => (.ok (b1 * 256 + b2), rest)
  | _ => (.error eofError, [])

/-- Model of `read_u32::<BigEndian>`: consume four bytes. -/
def readU32BE : List Nat → Except IoError Nat × List Nat
  | b1 :: b2 :: b3 :: b4 :: rest =>
    (.ok (((b1 * 256 + b2) * 256 + b3) * 256 + b4), rest)
  | _ => (.error eofError, [])

/-- Model of `std::net::Ipv4Addr`: four octets. -/
structure Ipv4Addr where
  (a b c d : Nat)
  deriving DecidableEq, Repr

/-- Model of `u32::from(Ipv4Addr)`: the big-endian numeric value. -/
def ipv4ToU32 (ip : Ipv4Addr) : Nat :=
  ip.a * 16777216 + ip.b * 65536 + ip.c * 256 + ip.d

/-- Model of `Ipv4Addr::from(u32)`: split a numeric value into big-endian octets. -/
def ipv4FromU32 (n : Nat) : Ipv4Addr :=
  ⟨n / 16777216 % 256, n / 65536 % 256, n / 256 % 256, n % 256⟩

/-- Model of `std::net::Ipv6Addr`: eight 16-bit segments. -/
structure Ipv6Addr where
  (s0 s1 s2 s3 s4 s5 s6 s7 : Nat)
  deriving DecidableEq, Repr

/-- Model of `std::net::SocketAddrV4`. -/
structure SocketAddrV4 where
  ip : Ipv4Addr
  port : Nat
  deriving DecidableEq, Repr

/-- Model of `std::net::SocketAddrV6` (flowinfo and scope_id participate in equality). -/
structure SocketAddrV6 where
  ip : Ipv6Addr
  port : Nat
  flowinfo : Nat
  scope_id : Nat
  deriving DecidableEq, Repr

/-- Model of `std::net::SocketAddr`. -/
inductive SocketAddr where
  | v4 (addr : SocketAddrV4)
  | v6 (addr : SocketAddrV6)
  deriving DecidableEq, Repr

/-- The crate's `TargetAddr`: a resolved IP target or a domain name and port. -/
inductive TargetAddr where
  | ip (addr : SocketAddr)
  | domain (host : String) (port : Nat)
  deriving DecidableEq, Repr

/-- UTF-8 encoding of one character (the bytes Rust's `str::as_bytes`
exposes for it). -/
def charUtf8 (c : Char) : List Nat :=
  let n := c.toNat
  if n < 128 then [n]
  else if n < 2048 then [192 + n / 64, 128 + n % 64]
  else if n < 65536 then [224 + n / 4096, 128 + n / 64 % 64, 128 + n % 64]
  else [240 + n / 262144, 128 + n / 4096 % 64, 128 + n / 64 % 64, 128 + n % 64]

/-- Model of `str::as_bytes`: the UTF-8 bytes of a string.  `(strBytes s).length`
is Rust's `s.len()`. -/
def strBytes (s : String) : List Nat := s.data.flatMap charUtf8

/-- From `v5.rs`: `const MAX_ADDR_LEN: usize = 260`. -/
def MAX_ADDR_LEN : Nat := 260

/-- From `v5.rs`, `read_addr`: decode the SOCKS5 three-way address encoding.
Address type 1 is IPv4, type 4 is IPv6; any other type is an error. -/
def read_addr (input : List Nat) : Except IoError SocketAddr × List Nat :=
  match readU8 input with
  | (.error e, rest) => (.error e, rest)
  | (.ok t, input) =>
    match t with
    | 1 =>
      match readU32BE input with
      | (.error e, rest) => (.error e, rest)
      | (.ok n, input) =>
        match readU16BE input with
        | (.error e, rest) => (.error e, rest)
        | (.ok port, input) => (.ok (.v4 ⟨ipv4FromU32 n, port⟩), input)
    | 4 =>
      match input with
      | b0 :: b1 :: b2 :: b3 :: b4 :: b5 :: b6 :: b7 ::
        b8 :: b9 :: b10 :: b11 :: b12 :: b13 :: b14 :: b15 :: rest =>
        match readU16BE rest with
        | (.error e, rest) => (.error e, rest)
        | (.ok port, input) =>
          (.ok (.v6 ⟨⟨b0 * 256 + b1, b2 * 256 + b3, b4 * 256 + b5, b6 * 256 + b7,
                      b8 * 256 + b9, b10 * 256 + b11, b12 * 256 + b13,
                      b14 * 256 + b15⟩, port, 0, 0⟩), input)
      | _ => (.error eofError, [])
    | _ => (.error ⟨.other, "unsupported address type"⟩, input)

/-- From `v5.rs`, `read_response`: decode a SOCKS5 reply: version byte, status
byte, reserved byte, then the bound address via `read_addr`. -/
def read_response (input : List Nat) : Except IoError SocketAddr × List Nat :=
  match readU8 input with
  | (.error e, rest) => (.error e, rest)
  | (.ok v, input) =>
    if v ≠ 5 then (.error ⟨.invalidData, "invalid response version"⟩, input)
    else
      match readU8 input with
      | (.error e, rest) => (.error e, rest)
      | (.ok status, input) =>
        match status with
        | 0 =>
          match readU8 input with
          | (.error e, rest) => (.error e, rest)
          | (.ok r, input) =>
            if r ≠ 0 then (.error ⟨.invalidData, "invalid reserved byte"⟩, input)
            else read_addr input
        | 1 => (.error ⟨.other, "general SOCKS server failure"⟩, input)
        | 2 => (.error ⟨.other, "connection not allowed by ruleset"⟩, input)
        | 3 => (.error ⟨.other, "network unreachable"⟩, input)
        | 4 => (.error ⟨.other, "host unreachable"⟩, input)
        | 5 => (.error ⟨.other, "connection refused"⟩, input)
        | 6 => (.error ⟨.other, "TTL expired"⟩, input)
        | 7 => (.error ⟨.other, "command not supported"⟩, input)
        | 8 => (.error ⟨.other, "address kind not supported"⟩, input)
        | _ => (.error ⟨.other, "unknown error"⟩, input)

/-- From `v5.rs`, `write_addr`: the SOCKS5 three-way address encoding.  A domain
name longer than 255 bytes is rejected; otherwise type tag, address bytes
and big-endian port are produced. -/
def write_addr (target : TargetAddr) : Except IoError (List Nat) :=
  match target with
  | .ip (.v4 addr) =>
    .ok (1 :: (writeU32BE (ipv4ToU32 addr.ip) ++ writeU16BE addr.port))
  | .ip (.v6 addr) =>
    .ok (4 :: (writeU16BE addr.ip.s0 ++ writeU16BE addr.ip.s1 ++
               writeU16BE addr.ip.s2 ++ writeU16BE addr.ip.s3 ++
               writeU16BE addr.ip.s4 ++ writeU16BE addr.ip.s5 ++
               writeU16BE addr.ip.s6 ++ writeU16BE addr.ip.s7 ++
               writeU16BE addr.port))
  | .domain host port =>
    if 255 < (strBytes host).length then
      .error ⟨.invalidInput, "domain name too long"⟩
    else
      .ok (3 :: (strBytes host).length % 256 :: (strBytes host ++ writeU16BE port))

/-- A transport-level I/O action performed by a connect handshake:
opening the TCP connection to the proxy, writing a block of bytes to it,
or reading `n` bytes from it. -/
inductive IoEvent where
  | connect
  | write (bytes : List Nat)
  | read (n : Nat)
  deriving DecidableEq, Repr

/-- The state of `Socks4Stream` after a successful handshake (the socket
handle itself carries no protocol content). -/
structure Socks4Stream where
  proxy_addr : SocketAddrV4
  deriving DecidableEq, Repr

/-- From `lib.rs`, `Socks4Stream::connect`, reply phase: the 8 reply bytes are
parsed.  Byte 0 must be 0, byte 1 is the status (90 grants, 91/92/93 and
anything else are distinct failures), bytes 2-3 are the big-endian port
and bytes 4-7 the big-endian IPv4 address of `proxy_addr`. -/
def socks4HandleReply (input : List Nat) : Except IoError Socks4Stream :=
  match input with
  | r0 :: r1 :: r2 :: r3 :: r4 :: r5 :: r6 :: r7 :: _ =>
    if r0 ≠ 0 then .error ⟨.invalidData, "invalid response version"⟩
    else
      match r1 with
      | 90 =>
        .ok ⟨⟨ipv4FromU32 (((r4 * 256 + r5) * 256 + r6) * 256 + r7),
              r2 * 256 + r3⟩⟩
      | 91 => .error ⟨.other, "request rejected or failed"⟩
      | 92 => .error ⟨.permissionDenied,
          "request rejected because SOCKS server cannot connect to idnetd on the client"⟩
      | 93 => .error ⟨.permissionDenied,
          "request rejected because the client program and identd report different user-ids"⟩
      | _ => .error ⟨.invalidData, "invalid response code"⟩
  | _ => .error eofError

/-- From `lib.rs`, `Socks4Stream::connect`, exchange phase: the request packet
is written in one framed write, then exactly 8 reply bytes are read
(`read_exact`) and parsed. -/
def socks4Exchange (packet input : List Nat) (events : List IoEvent) :
    Except IoError Socks4Stream × List IoEvent :=
  let events := events ++ [IoEvent.write packet]
  if input.length < 8 then
    (.error eofError, events ++ [IoEvent.read input.length])
  else
    (socks4HandleReply input, events ++ [IoEvent.read 8])

/-- From `lib.rs`, `Socks4Stream::connect`: open the transport connection, then
build the SOCKS4/SOCKS4A request from the target and userid (an IPv6
target is rejected), write it, and handle the 8-byte reply.  `input` is
the byte stream the proxy sends; the second component is the trace of
transport I/O performed. -/
def socks4Connect (target : TargetAddr) (userid : String) (input : List Nat) :
    Except IoError Socks4Stream × List IoEvent :=
  let events := [IoEvent.connect]
  match target with
  | .ip (.v6 _) =>
    (.error ⟨.invalidInput, "SOCKS4 does not support IPv6"⟩, events)
  | .ip (.v4 addr) =>
    let packet := 4 :: 1 :: (writeU16BE addr.port ++ writeU32BE (ipv4ToU32 addr.ip)
      ++ strBytes userid ++ [0])
    socks4Exchange packet input events
  | .domain host port =>
    let packet := 4 :: 1 :: (writeU16BE port ++ writeU32BE (ipv4ToU32 ⟨0, 0, 0, 1⟩)
      ++ strBytes userid ++ [0] ++ strBytes host ++ [0])
    socks4Exchange packet input events

/-- The state of `Socks5Stream` after a successful handshake. -/
structure Socks5Stream where
  proxy_addr : SocketAddr
  deriving DecidableEq, Repr

/-- From `v5.rs`, `Socks5Stream::connect_raw`: open the transport connection,
write the method-negotiation header `[5, 1, 0]`, read the 2-byte method
reply, then build the request `[5, command, 0] ++ write_addr target`
(failing without writing it if the target's domain name is oversized),
write it, and decode the reply with `read_response`. -/
def socks5ConnectRaw (command : Nat) (target : TargetAddr) (input : List Nat) :
    Except IoError Socks5Stream × List IoEvent :=
  let events := [IoEvent.connect, IoEvent.write [5, 1, 0]]
  match readU8 input with
  | (.error e, _) => (.error e, events)
  | (.ok v, input) =>
    let events := events ++ [IoEvent.read 1]
    if v ≠ 5 then (.error ⟨.invalidData, "invalid response version"⟩, events)
    else
      match readU8 input with
      | (.error e, _) => (.error e, events)
      | (.ok m, input) =>
        let events := events ++ [IoEvent.read 1]
        match m with
        | 0 =>
          match write_addr target with
          | .error e => (.error e, events)
          | .ok addrBytes =>
            let packet := 5 :: command :: 0 :: addrBytes
            let events := events ++ [IoEvent.write packet]
            match read_response input with
            | (.error e, rest) =>
              (.error e, events ++ [IoEvent.read (input.length - rest.length)])
            | (.ok addr, rest) =>
              (.ok ⟨addr⟩, events ++ [IoEvent.read (input.length - rest.length)])
        | 255 => (.error ⟨.other, "no acceptable auth methods"⟩, events)
        | _ => (.error ⟨.invalidData, "unknown auth method"⟩, events)

/-- From `v5.rs`, `Socks5Listener`: a stream that has sent a BIND request and
received the first reply, awaiting the connection notification. -/
structure Socks5Listener where
  inner : Socks5Stream
  deriving DecidableEq, Repr

/-- From `v5.rs`, `Socks5Listener::bind`: `connect_raw` with command 2. -/
def socks5Bind (target : TargetAddr) (input : List Nat) :
    Except IoError Socks5Listener × List IoEvent :=
  match socks5ConnectRaw 2 target input with
  | (.ok s, ev) => (.ok ⟨s⟩, ev)
  | (.error e, ev) => (.error e, ev)

/-- From `v5.rs`, `Socks5Listener::proxy_addr`. -/
def Socks5Listener.proxy_addr (l : Socks5Listener) : SocketAddr :=
  l.inner.proxy_addr

/-- From `v5.rs`, `Socks5Listener::accept`: decode a second reply on the same
connection, overwrite `proxy_addr` with its address, and yield the
stream. -/
def Socks5Listener.accept (l : Socks5Listener) (input : List Nat) :
    Except IoError Socks5Stream :=
  match read_response input with
  | (.ok addr, _) => .ok { l.inner with proxy_addr := addr }
  | (.error e, _) => .error e

/-- From `v5.rs`, `Socks5Datagram`: the datagram relay handle, keeping the
control stream (and its `proxy_addr`, the proxy-side relay endpoint). -/
structure Socks5Datagram where
  stream : Socks5Stream
  deriving DecidableEq, Repr

/-- From `v5.rs`, `Socks5Datagram::send_to`: frame `buf` with two zero reserved
bytes, a zero fragment byte and the encoded target, and send the packet
as one datagram to `stream.proxy_addr`.  The result models
`UdpSocket::send_to` under full transmission: the returned count is the
packet length; the packet bytes and the destination are also returned so
that properties about them can be stated. -/
def Socks5Datagram.send_to (d : Socks5Datagram) (buf : List Nat)
    (addr : TargetAddr) : Except IoError (Nat × List Nat × SocketAddr) :=
  match write_addr addr with
  | .error e => .error e
  | .ok addrBytes =>
    let packet := writeU16BE 0 ++ 0 :: addrBytes ++ buf
    .ok (packet.length, packet, d.stream.proxy_addr)

/-- From `v5.rs`, `Socks5Datagram::recv_from`: receive one datagram (`datagram`
are the bytes the relay sent, truncated by the OS to the scratch buffer
of `buf.length + MAX_ADDR_LEN + 3` bytes), check the reserved and
fragment bytes, decode the source address, then copy the remainder into
the caller's buffer via `Write for &mut [u8]` (which copies
`min remaining buf.length` bytes and returns that count).  Returns the
count and source address together with the final buffer contents. -/
def Socks5Datagram.recv_from (_d : Socks5Datagram) (buf : List Nat)
    (datagram : List Nat) : Except IoError ((Nat × SocketAddr) × List Nat) :=
  let len := min datagram.length (buf.length + MAX_ADDR_LEN + 3)
  let inner := datagram.take len
  match readU16BE inner with
  | (.error e, _) => .error e
  | (.ok r, inner) =>
    if r ≠ 0 then .error ⟨.invalidData, "invalid reserved bytes"⟩
    else
      match readU8 inner with
      | (.error e, _) => .error e
      | (.ok f, inner) =>
        if f ≠ 0 then .error ⟨.invalidData, "invalid fragment id"⟩
        else
          match read_addr inner with
          | (.error e, _) => .error e
          | (.ok addr, inner) =>
            let amt := min inner.length buf.length
            .ok ((amt, addr), inner.take amt ++ buf.drop amt)

/-- The `std::net` literal parsers the crate calls through
`str::parse`.  They are external std-library collaborators, so the
embedding takes them as parameters: every theorem about normalization
holds for any choice of them. -/
structure NetParsers where
  parseSocketAddrV4 : String → Option SocketAddrV4
  parseSocketAddrV6 : String → Option SocketAddrV6
  parseIpv4Addr : String → Option Ipv4Addr
  parseIpv6Addr : String → Option Ipv6Addr

/-- Model of `<u16 as FromStr>::from_str`: an optional leading `+`, then one or
more decimal digits whose value fits in 16 bits. -/
def parseU16 (s : String) : Option Nat :=
  let digits := if s.data.head? = some '+' then s.data.tail else s.data
  if digits.isEmpty then none
  else if digits.all (·.isDigit) then
    let v := digits.foldl (fun acc c => acc * 10 + (c.toNat - 48)) 0
    if v ≤ 65535 then some v else none
  else none

/-- Model of `s.rsplitn(2, ':')` as used by `ToTargetAddr for &str`: split at the
last `:`, returning (host part, trailing port part); `none` when the
string contains no `:`. -/
def lastColonSplit : List Char → Option (List Char × List Char)
  | [] => none
  | c :: rest =>
    match lastColonSplit rest with
    | some (pre, post) => some (c :: pre, post)
    | none => if c = ':' then some ([], rest) else none

/-- From `lib.rs`, `ToTargetAddr for (&str, u16)`: try the host as an IPv4
literal, then as an IPv6 literal, else keep it as a domain name. -/
def hostPortToTargetAddr (P : NetParsers) (host : String) (port : Nat) :
    Except IoError TargetAddr :=
  match P.parseIpv4Addr host with
  | some ip => .ok (.ip (.v4 ⟨ip, port⟩))
  | none =>
    match P.parseIpv6Addr host with
    | some ip => .ok (.ip (.v6 ⟨ip, port, 0, 0⟩))
    | none => .ok (.domain host port)

/-- From `lib.rs`, `ToTargetAddr for &str`: try a full `SocketAddrV4` parse,
then a full `SocketAddrV6` parse, then split at the last `:`, parse the
trailing segment as a `u16` port, and convert the remaining host
segment with `hostPortToTargetAddr`. -/
def strToTargetAddr (P : NetParsers) (s : String) : Except IoError TargetAddr :=
  match P.parseSocketAddrV4 s with
  | some addr => .ok (.ip (.v4 addr))
  | none =>
    match P.parseSocketAddrV6 s with
    | some addr => .ok (.ip (.v6 addr))
    | none =>
      match lastColonSplit s.data with
      | none => .error ⟨.invalidInput, "invalid socket address"⟩
      | some (host, portStr) =>
        match parseU16 (String.mk portStr) with
        | none => .error ⟨.invalidInput, "invalid port value"⟩
        | some port => hostPortToTargetAddr P (String.mk host) port

/-- The byte blocks written to the transport, in order, by a trace. -/
def writesOf (events : List IoEvent) : List (List Nat) :=
  events.filterMap fun e =>
    match e with
    | .write bs => some bs
    | _ => none

/-- A 256-character domain name (one byte per character in UTF-8). -/
def longDomain : String := String.mk (List.replicate 256 'a')

/-- A `NetParsers` instance whose literal parsers all fail; used to
instantiate parser-generic theorems at a concrete point. -/
def noneParsers : NetParsers :=
  ⟨fun _ => none, fun _ => none, fun _ => none, fun _ => none⟩

theorem readU16BE_write (n : Nat) (h : n < 65536) (rest : List Nat) :
    readU16BE (writeU16BE n ++ rest) = (.ok n, rest) := by
  simp only [writeU16BE, List.cons_append, List.nil_append, readU16BE]
  have he : n / 256 % 256 * 256 + n % 256 = n := by omega
  rw [he]

theorem readU32BE_write (n : Nat) (h : n < 4294967296) (rest : List Nat) :
    readU32BE (writeU32BE n ++ rest) = (.ok n, rest) := by
  simp only [writeU32BE, List.cons_append, List.nil_append, readU32BE]
  have he : ((n / 16777216 % 256 * 256 + n / 65536 % 256) * 256 + n / 256 % 256) * 256
      + n % 256 = n := by omega
  rw [he]

theorem ipv4FromU32_ipv4ToU32 (ip : Ipv4Addr) (ha : ip.a < 256) (hb : ip.b < 256)
    (hc : ip.c < 256) (hd : ip.d < 256) : ipv4FromU32 (ipv4ToU32 ip) = ip := by
  cases ip
  simp only [ipv4FromU32, ipv4ToU32, Ipv4Addr.mk.injEq] at *
  omega

theorem ipv4ToU32_lt (ip : Ipv4Addr) (ha : ip.a < 256) (hb : ip.b < 256)
    (hc : ip.c < 256) (hd : ip.d < 256) : ipv4ToU32 ip < 4294967296 := by
  simp only [ipv4ToU32] at *
  omega

/-- C2: encoding a `TargetAddr` with `write_addr` and decoding the bytes
with `read_addr` reproduces an IPv4 target exactly and reproduces an
IPv6 target's segments and port with flowinfo and scope_id zeroed (so
exactly whenever those are zero); a `Domain` encoding is never decoded
back: `read_addr` rejects its address-type byte 3 as unsupported. -/
theorem write_addr_read_addr_roundtrip :
    (∀ (a : SocketAddrV4) (rest bs : List Nat),
      a.ip.a < 256 → a.ip.b < 256 → a.ip.c < 256 → a.ip.d < 256 →
      a.port < 65536 →
      write_addr (.ip (.v4 a)) = .ok bs →
      read_addr (bs ++ rest) = (.ok (.v4 a), rest))
    ∧ (∀ (a : SocketAddrV6) (rest bs : List Nat),
      a.ip.s0 < 65536 → a.ip.s1 < 65536 → a.ip.s2 < 65536 → a.ip.s3 < 65536 →
      a.ip.s4 < 65536 → a.ip.s5 < 65536 → a.ip.s6 < 65536 → a.ip.s7 < 65536 →
      a.port < 65536 →
      write_addr (.ip (.v6 a)) = .ok bs →
      read_addr (bs ++ rest) = (.ok (.v6 ⟨a.ip, a.port, 0, 0⟩), rest))
    ∧ (∀ (host : String) (port : Nat) (rest bs : List Nat),
      write_addr (.domain host port) = .ok bs →
      (read_addr (bs ++ rest)).1 = .error ⟨.other, "unsupported address type"⟩) := by
  refine ⟨?_, ?_, ?_⟩
  · intro a rest bs ha hb hc hd hp hw
    simp only [write_addr, Except.ok.injEq] at hw
    subst hw
    have h32 := ipv4ToU32_lt a.ip ha hb hc hd
    simp only [List.cons_append, List.append_assoc, read_addr, readU8,
      readU32BE_write _ h32, readU16BE_write _ hp,
      ipv4FromU32_ipv4ToU32 a.ip ha hb hc hd]
  · intro a rest bs h0 h1 h2 h3 h4 h5 h6 h7 hp hw
    simp only [write_addr, Except.ok.injEq] at hw
    subst hw
    obtain ⟨⟨s0, s1, s2, s3, s4, s5, s6, s7⟩, port, flow, scope⟩ := a
    simp only at h0 h1 h2 h3 h4 h5 h6 h7 hp ⊢
    simp only [writeU16BE, List.cons_append, List.nil_append, List.append_assoc,
      read_addr, readU8, readU16BE, SocketAddr.v6.injEq, SocketAddrV6.mk.injEq,
      Ipv6Addr.mk.injEq, Prod.mk.injEq, Except.ok.injEq, and_true, true_and]
    omega
  · intro host port rest bs hw
    simp only [write_addr] at hw
    split at hw
    · exact absurd hw (by simp)
    · simp only [Except.ok.injEq] at hw
      subst hw
      simp only [List.cons_append, read_addr, readU8]

/-- C2 counterexample: the claim's Domain round-trip fails on the code:
the encoding of `Domain("a", 80)` decodes to an unsupported-address-type
error, not to the same host and port (`read_addr` cannot return a domain
at all). -/
theorem write_addr_read_addr_domain_counterexample :
    write_addr (.domain "a" 80) = .ok [3, 1, 97, 0, 80]
    ∧ (read_addr [3, 1, 97, 0, 80]).1 =
        .error ⟨.other, "unsupported address type"⟩ := by
  constructor <;> rfl

theorem lastColonSplit_eq_none (l : List Char) (h : ':' ∉ l) :
    lastColonSplit l = none := by
  induction l with
  | nil => rfl
  | cons c rest ih =>
    simp only [List.mem_cons, not_or] at h
    have hc : ¬c = ':' := fun he => h.1 he.symm
    simp [lastColonSplit, ih h.2, hc]

/-- C4: string normalization tries, in order, a full `SocketAddrV4`
parse, a full `SocketAddrV6` parse, then splits at the last `:`, parses
the trailing segment as a 16-bit port, and parses the host segment as
IPv4 then IPv6, producing `TargetAddr.ip` whenever a host parse
succeeds and `TargetAddr.domain` when both fail; a string without `:`
and a string whose port segment does not parse are errors.  Stated for
any behavior `P` of the external `std::net` literal parsers (the two
hypotheses record that a socket-address literal must contain a `:`). -/
theorem str_normalization_order (P : NetParsers) (s : String)
    (hV4 : ∀ t : String, ':' ∉ t.data → P.parseSocketAddrV4 t = none)
    (hV6 : ∀ t : String, ':' ∉ t.data → P.parseSocketAddrV6 t = none) :
    (∀ a, P.parseSocketAddrV4 s = some a →
      strToTargetAddr P s = .ok (.ip (.v4 a)))
    ∧ (∀ a, P.parseSocketAddrV4 s = none → P.parseSocketAddrV6 s = some a →
      strToTargetAddr P s = .ok (.ip (.v6 a)))
    ∧ (':' ∉ s.data →
      strToTargetAddr P s = .error ⟨.invalidInput, "invalid socket address"⟩)
    ∧ (∀ host portStr,
      P.parseSocketAddrV4 s = none → P.parseSocketAddrV6 s = none →
      lastColonSplit s.data = some (host, portStr) →
      (parseU16 (String.mk portStr) = none →
        strToTargetAddr P s = .error ⟨.invalidInput, "invalid port value"⟩)
      ∧ (∀ port, parseU16 (String.mk portStr) = some port →
        (∀ ip, P.parseIpv4Addr (String.mk host) = some ip →
          strToTargetAddr P s = .ok (.ip (.v4 ⟨ip, port⟩)))
        ∧ (∀ ip, P.parseIpv4Addr (String.mk host) = none →
          P.parseIpv6Addr (String.mk host) = some ip →
          strToTargetAddr P s = .ok (.ip (.v6 ⟨ip, port, 0, 0⟩)))
        ∧ (P.parseIpv4Addr (String.mk host) = none →
          P.parseIpv6Addr (String.mk host) = none →
          strToTargetAddr P s = .ok (.domain (String.mk host) port)))) := by
  refine ⟨?_, ?_, ?_, ?_⟩
  · intro a ha
    simp [strToTargetAddr, ha]
  · intro a h4 h6
    simp [strToTargetAddr, h4, h6]
  · intro hc
    simp [strToTargetAddr, hV4 s hc, hV6 s hc, lastColonSplit_eq_none s.data hc]
  · intro host portStr h4 h6 hsplit
    constructor
    · intro hport
      simp [strToTargetAddr, h4, h6, hsplit, hport]
    · intro port hport
      refine ⟨?_, ?_, ?_⟩
      · intro ip hip
        simp [strToTargetAddr, h4, h6, hsplit, hport, hostPortToTargetAddr, hip]
      · intro ip hip4 hip6
        simp [strToTargetAddr, h4, h6, hsplit, hport, hostPortToTargetAddr, hip4, hip6]
      · intro hip4 hip6
        simp [strToTargetAddr, h4, h6, hsplit, hport, hostPortToTargetAddr, hip4, hip6]

theorem str_normalization_order_witness :
    strToTargetAddr noneParsers "example.com:80" = .ok (.domain "example.com" 80) := by
  have h := str_normalization_order noneParsers "example.com:80"
    (fun _ _ => rfl) (fun _ _ => rfl)
  have h5 := (h.2.2.2 "example.com".data "80".data rfl rfl rfl).2 80 rfl
  exact h5.2.2 rfl rfl

theorem writeU32BE_ipv4 (ip : Ipv4Addr) (ha : ip.a < 256) (hb : ip.b < 256)
    (hc : ip.c < 256) (hd : ip.d < 256) :
    writeU32BE (ipv4ToU32 ip) = [ip.a, ip.b, ip.c, ip.d] := by
  simp only [writeU32BE, ipv4ToU32, List.cons.injEq, and_true]
  omega

/-- C5: handling of the 8-byte SOCKS4 reply by `socks4Connect`: a nonzero
byte 0 is a malformed-reply error; status byte 90 succeeds with
`proxy_addr` taken from bytes 2-3 (big-endian port) and 4-7 (big-endian
IPv4 address); statuses 91, 92, 93 and every other value produce four
pairwise-distinct failures; and the exchange is a single request write
followed by a single 8-byte read, never retried. -/
theorem socks4_reply_handling (a : SocketAddrV4) (userid : String)
    (r0 r1 r2 r3 r4 r5 r6 r7 : Nat) (rest : List Nat)
    (h4 : r4 < 256) (h5 : r5 < 256) (h6 : r6 < 256) (h7 : r7 < 256) :
    (r0 ≠ 0 →
      (socks4Connect (.ip (.v4 a)) userid
        (r0 :: r1 :: r2 :: r3 :: r4 :: r5 :: r6 :: r7 :: rest)).1 =
        .error ⟨.invalidData, "invalid response version"⟩)
    ∧ (r0 = 0 → r1 = 90 →
      (socks4Connect (.ip (.v4 a)) userid
        (r0 :: r1 :: r2 :: r3 :: r4 :: r5 :: r6 :: r7 :: rest)).1 =
        .ok ⟨⟨⟨r4, r5, r6, r7⟩, r2 * 256 + r3⟩⟩)
    ∧ (r0 = 0 → r1 = 91 →
      (socks4Connect (.ip (.v4 a)) userid
        (r0 :: r1 :: r2 :: r3 :: r4 :: r5 :: r6 :: r7 :: rest)).1 =
        .error ⟨.other, "request rejected or failed"⟩)
    ∧ (r0 = 0 → r1 = 92 →
      (socks4Connect (.ip (.v4 a)) userid
        (r0 :: r1 :: r2 :: r3 :: r4 :: r5 :: r6 :: r7 :: rest)).1 =
        .error ⟨.permissionDenied,
          "request rejected because SOCKS server cannot connect to idnetd on the client"⟩)
    ∧ (r0 = 0 → r1 = 93 →
      (socks4Connect (.ip (.v4 a)) userid
        (r0 :: r1 :: r2 :: r3 :: r4 :: r5 :: r6 :: r7 :: rest)).1 =
        .error ⟨.permissionDenied,
          "request rejected because the client program and identd report different user-ids"⟩)
    ∧ (r0 = 0 → r1 ≠ 90 → r1 ≠ 91 → r1 ≠ 92 → r1 ≠ 93 →
      (socks4Connect (.ip (.v4 a)) userid
        (r0 :: r1 :: r2 :: r3 :: r4 :: r5 :: r6 :: r7 :: rest)).1 =
        .error ⟨.invalidData, "invalid response code"⟩)
    ∧ ([(⟨.other, "request rejected or failed"⟩ : IoError),
        ⟨.permissionDenied,
          "request rejected because SOCKS server cannot connect to idnetd on the client"⟩,
        ⟨.permissionDenied,
          "request rejected because the client program and identd report different user-ids"⟩,
        ⟨.invalidData, "invalid response code"⟩].Nodup)
    ∧ ((socks4Connect (.ip (.v4 a)) userid
        (r0 :: r1 :: r2 :: r3 :: r4 :: r5 :: r6 :: r7 :: rest)).2 =
        [.connect,
         .write (4 :: 1 :: (writeU16BE a.port ++ writeU32BE (ipv4ToU32 a.ip)
           ++ strBytes userid ++ [0])),
         .read 8]) := by
  have hmain : socks4Connect (.ip (.v4 a)) userid
      (r0 :: r1 :: r2 :: r3 :: r4 :: r5 :: r6 :: r7 :: rest) =
      (socks4HandleReply (r0 :: r1 :: r2 :: r3 :: r4 :: r5 :: r6 :: r7 :: rest),
       [.connect,
        .write (4 :: 1 :: (writeU16BE a.port ++ writeU32BE (ipv4ToU32 a.ip)
          ++ strBytes userid ++ [0])),
        .read 8]) := by
    simp only [socks4Connect, socks4Exchange]
    rw [if_neg (by simp only [List.length_cons]; omega)]
    rfl
  rw [hmain]
  refine ⟨?_, ?_, ?_, ?_, ?_, ?_, by decide, rfl⟩
  · intro h0
    simp [socks4HandleReply, h0]
  · rintro rfl rfl
    simp only [socks4HandleReply, ne_eq, not_true_eq_false, if_false,
      reduceCtorEq, ite_false]
    simp only [ipv4FromU32, Except.ok.injEq, Socks4Stream.mk.injEq,
      SocketAddrV4.mk.injEq, Ipv4Addr.mk.injEq, and_true, true_and]
    omega
  · rintro rfl rfl
    rfl
  · rintro rfl rfl
    rfl
  · rintro rfl rfl
    rfl
  · rintro rfl h90 h91 h92 h93
    simp only [socks4HandleReply]
    split <;> simp_all

/-- C5 witness: the spec's example reply `00 5A 00 50 C0 A8 01 01`
grants the request with port 80 and proxy address 192.168.1.1. -/
theorem socks4_reply_handling_witness :
    (socks4Connect (.ip (.v4 ⟨⟨127, 0, 0, 1⟩, 8080⟩)) ""
      [0x00, 0x5A, 0x00, 0x50, 0xC0, 0xA8, 0x01, 0x01]).1 =
      .ok ⟨⟨⟨192, 168, 1, 1⟩, 80⟩⟩ := by
  have h := (socks4_reply_handling ⟨⟨127, 0, 0, 1⟩, 8080⟩ ""
    0 90 0 80 192 168 1 1 [] (by decide) (by decide) (by decide)
    (by decide)).2.1 rfl rfl
  simpa using h

/-- C6: the SOCKS4 request written to the proxy is exactly: version byte
4, command byte 1, big-endian 16-bit port, then the target's IPv4 octets
(IP case) or the sentinel `0.0.0.1` (domain case), the userid bytes and
a NUL, and — domain case only — the domain bytes and a second NUL; an
IPv6 target is a hard error written nowhere. -/
theorem socks4_request_format :
    (∀ (a : SocketAddrV4) (userid : String) (input : List Nat),
      a.ip.a < 256 → a.ip.b < 256 → a.ip.c < 256 → a.ip.d < 256 →
      writesOf (socks4Connect (.ip (.v4 a)) userid input).2 =
        [4 :: 1 :: (writeU16BE a.port ++ [a.ip.a, a.ip.b, a.ip.c, a.ip.d]
          ++ strBytes userid ++ [0])])
    ∧ (∀ (host : String) (port : Nat) (userid : String) (input : List Nat),
      writesOf (socks4Connect (.domain host port) userid input).2 =
        [4 :: 1 :: (writeU16BE port ++ [0, 0, 0, 1]
          ++ strBytes userid ++ [0] ++ strBytes host ++ [0])])
    ∧ (∀ (a : SocketAddrV6) (userid : String) (input : List Nat),
      (socks4Connect (.ip (.v6 a)) userid input).1 =
        .error ⟨.invalidInput, "SOCKS4 does not support IPv6"⟩
      ∧ writesOf (socks4Connect (.ip (.v6 a)) userid input).2 = []) := by
  refine ⟨?_, ?_, ?_⟩
  · intro a userid input ha hb hc hd
    rw [← writeU32BE_ipv4 a.ip ha hb hc hd]
    simp only [socks4Connect, socks4Exchange]
    split <;> rfl
  · intro host port userid input
    have h1 : writeU32BE (ipv4ToU32 ⟨0, 0, 0, 1⟩) = [0, 0, 0, 1] := by decide
    rw [← h1]
    simp only [socks4Connect, socks4Exchange]
    split <;> rfl
  · intro a userid input
    exact ⟨rfl, rfl⟩

/-- C6 witness: a concrete IPv4 request packet. -/
theorem socks4_request_format_witness :
    writesOf (socks4Connect (.ip (.v4 ⟨⟨192, 168, 1, 1⟩, 80⟩)) "" []).2 =
      [[4, 1, 0, 80, 192, 168, 1, 1, 0]] := by
  have h := socks4_request_format.1 ⟨⟨192, 168, 1, 1⟩, 80⟩ "" []
    (by decide) (by decide) (by decide) (by decide)
  simpa using h

set_option maxRecDepth 8000 in
/-- C1 counterexample: a SOCKS5 target with a 256-byte domain name is
rejected, but only after the transport connection is opened, the
method-negotiation bytes `[5, 1, 0]` are written and two reply bytes are
read — so I/O does occur (in particular a network write) before the
input error is returned. -/
theorem socks5_oversized_domain_counterexample :
    (socks5ConnectRaw 1 (.domain longDomain 80) [5, 0]).1 =
      .error ⟨.invalidInput, "domain name too long"⟩
    ∧ (socks5ConnectRaw 1 (.domain longDomain 80) [5, 0]).2 =
      [.connect, .write [5, 1, 0], .read 1, .read 1]
    ∧ IoEvent.write [5, 1, 0] ∈ (socks5ConnectRaw 1 (.domain longDomain 80) [5, 0]).2 := by
  refine ⟨rfl, rfl, ?_⟩
  rw [show (socks5ConnectRaw 1 (.domain longDomain 80) [5, 0]).2 =
    [.connect, .write [5, 1, 0], .read 1, .read 1] from rfl]
  simp

/-- C1 amended: each input error is returned before the SOCKS request is
written.  An oversized SOCKS5 domain is rejected after the transport
connect and the method negotiation (one `[5,1,0]` write and two 1-byte
reads) but before any request/address bytes are written; an IPv6 target
given to `socks4Connect` is rejected after the transport connect but
before any bytes are written or read. -/
theorem input_errors_before_request_write :
    (∀ (host : String) (port command : Nat) (rest : List Nat),
      255 < (strBytes host).length →
      socks5ConnectRaw command (.domain host port) (5 :: 0 :: rest) =
        (.error ⟨.invalidInput, "domain name too long"⟩,
         [.connect, .write [5, 1, 0], .read 1, .read 1]))
    ∧ (∀ (a : SocketAddrV6) (userid : String) (input : List Nat),
      socks4Connect (.ip (.v6 a)) userid input =
        (.error ⟨.invalidInput, "SOCKS4 does not support IPv6"⟩, [.connect])) := by
  constructor
  · intro host port command rest hlen
    simp only [socks5ConnectRaw, readU8]
    rw [if_neg (by simp)]
    simp only [write_addr]
    rw [if_pos hlen]
    rfl
  · intro a userid input
    rfl

set_option maxRecDepth 8000 in
/-- C1 amended witness: the 256-character domain and a concrete IPv6
target exercise both components. -/
theorem input_errors_before_request_write_witness :
    socks5ConnectRaw 1 (.domain longDomain 80) [5, 0] =
      (.error ⟨.invalidInput, "domain name too long"⟩,
       [.connect, .write [5, 1, 0], .read 1, .read 1])
    ∧ socks4Connect (.ip (.v6 ⟨⟨0, 0, 0, 0, 0, 0, 0, 1⟩, 80, 0, 0⟩)) "" [] =
      (.error ⟨.invalidInput, "SOCKS4 does not support IPv6"⟩, [.connect]) := by
  constructor
  · exact input_errors_before_request_write.1 longDomain 80 1 []
      (by rw [show (strBytes longDomain).length = 256 from rfl]; omega)
  · exact input_errors_before_request_write.2 ⟨⟨0, 0, 0, 0, 0, 0, 0, 1⟩, 80, 0, 0⟩ "" []

/-- C7: decoding a SOCKS5 reply: a version byte other than 5 fails;
status 0 proceeds, statuses 1-8 and every unknown status produce nine
pairwise-distinct failures; a nonzero reserved byte fails; and the
address-type byte selects parsing — type 1 reads a 4-byte IPv4 address
and big-endian port, type 4 reads a 16-byte IPv6 address and big-endian
port, and every other type fails. -/
theorem socks5_reply_decoding :
    (∀ (b : Nat) (rest : List Nat), b ≠ 5 →
      (read_response (b :: rest)).1 = .error ⟨.invalidData, "invalid response version"⟩)
    ∧ (∀ rest : List Nat,
      (read_response (5 :: 1 :: rest)).1 = .error ⟨.other, "general SOCKS server failure"⟩)
    ∧ (∀ rest : List Nat,
      (read_response (5 :: 2 :: rest)).1 = .error ⟨.other, "connection not allowed by ruleset"⟩)
    ∧ (∀ rest : List Nat,
      (read_response (5 :: 3 :: rest)).1 = .error ⟨.other, "network unreachable"⟩)
    ∧ (∀ rest : List Nat,
      (read_response (5 :: 4 :: rest)).1 = .error ⟨.other, "host unreachable"⟩)
    ∧ (∀ rest : List Nat,
      (read_response (5 :: 5 :: rest)).1 = .error ⟨.other, "connection refused"⟩)
    ∧ (∀ rest : List Nat,
      (read_response (5 :: 6 :: rest)).1 = .error ⟨.other, "TTL expired"⟩)
    ∧ (∀ rest : List Nat,
      (read_response (5 :: 7 :: rest)).1 = .error ⟨.other, "command not supported"⟩)
    ∧ (∀ rest : List Nat,
      (read_response (5 :: 8 :: rest)).1 = .error ⟨.other, "address kind not supported"⟩)
    ∧ (∀ (s : Nat) (rest : List Nat), 9 ≤ s →
      (read_response (5 :: s :: rest)).1 = .error ⟨.other, "unknown error"⟩)
    ∧ (∀ (r : Nat) (rest : List Nat), r ≠ 0 →
      (read_response (5 :: 0 :: r :: rest)).1 = .error ⟨.invalidData, "invalid reserved byte"⟩)
    ∧ (∀ rest : List Nat, read_response (5 :: 0 :: 0 :: rest) = read_addr rest)
    ∧ ([(⟨.other, "general SOCKS server failure"⟩ : IoError),
        ⟨.other, "connection not allowed by ruleset"⟩,
        ⟨.other, "network unreachable"⟩,
        ⟨.other, "host unreachable"⟩,
        ⟨.other, "connection refused"⟩,
        ⟨.other, "TTL expired"⟩,
        ⟨.other, "command not supported"⟩,
        ⟨.other, "address kind not supported"⟩,
        ⟨.other, "unknown error"⟩].Nodup)
    ∧ (∀ (b1 b2 b3 b4 p1 p2 : Nat) (rest : List Nat),
      b1 < 256 → b2 < 256 → b3 < 256 → b4 < 256 →
      read_addr (1 :: b1 :: b2 :: b3 :: b4 :: p1 :: p2 :: rest) =
        (.ok (.v4 ⟨⟨b1, b2, b3, b4⟩, p1 * 256 + p2⟩), rest))
    ∧ (∀ (b0 b1 b2 b3 b4 b5 b6 b7 b8 b9 b10 b11 b12 b13 b14 b15 p1 p2 : Nat)
        (rest : List Nat),
      read_addr (4 :: b0 :: b1 :: b2 :: b3 :: b4 :: b5 :: b6 :: b7 :: b8 :: b9 ::
          b10 :: b11 :: b12 :: b13 :: b14 :: b15 :: p1 :: p2 :: rest) =
        (.ok (.v6 ⟨⟨b0 * 256 + b1, b2 * 256 + b3, b4 * 256 + b5, b6 * 256 + b7,
            b8 * 256 + b9, b10 * 256 + b11, b12 * 256 + b13, b14 * 256 + b15⟩,
          p1 * 256 + p2, 0, 0⟩), rest))
    ∧ (∀ (t : Nat) (rest : List Nat), t ≠ 1 → t ≠ 4 →
      (read_addr (t :: rest)).1 = .error ⟨.other, "unsupported address type"⟩) := by
  refine ⟨?_, fun _ => rfl, fun _ => rfl, fun _ => rfl, fun _ => rfl, fun _ => rfl,
    fun _ => rfl, fun _ => rfl, fun _ => rfl, ?_, ?_, fun _ => rfl, by decide,
    ?_, fun _ _ _ _ _ _ _ _ _ _ _ _ _ _ _ _ _ _ _ => rfl, ?_⟩
  · intro b rest hb
    simp only [read_response, readU8]
    rw [if_pos hb]
  · intro s rest hs
    simp only [read_response, readU8]
    rw [if_neg (by simp)]
    split <;> first | rfl | omega
  · intro r rest hr
    simp only [read_response, readU8]
    rw [if_neg (by simp), if_pos hr]
  · intro b1 b2 b3 b4 p1 p2 rest h1 h2 h3 h4
    simp only [read_addr, readU8, readU32BE, readU16BE, ipv4FromU32,
      Prod.mk.injEq, Except.ok.injEq, SocketAddr.v4.injEq, SocketAddrV4.mk.injEq,
      Ipv4Addr.mk.injEq, and_true, true_and]
    omega
  · intro t rest ht1 ht4
    simp only [read_addr, readU8]

/-- C7 witness: concrete replies exercising the version check, the
unknown-status catch-all, the reserved-byte check, IPv4 address parsing
and the unsupported-address-type failure. -/
theorem socks5_reply_decoding_witness :
    (read_response [6]).1 = .error ⟨.invalidData, "invalid response version"⟩
    ∧ (read_response [5, 99]).1 = .error ⟨.other, "unknown error"⟩
    ∧ (read_response [5, 0, 7]).1 = .error ⟨.invalidData, "invalid reserved byte"⟩
    ∧ read_addr [1, 1, 0, 0, 1, 0, 80] = (.ok (.v4 ⟨⟨1, 0, 0, 1⟩, 80⟩), [])
    ∧ (read_addr [3, 0]).1 = .error ⟨.other, "unsupported address type"⟩ := by
  have h := socks5_reply_decoding
  refine ⟨h.1 6 [] (by decide), h.2.2.2.2.2.2.2.2.2.1 99 [] (by decide),
    h.2.2.2.2.2.2.2.2.2.2.1 7 [] (by decide), ?_, h.2.2.2.2.2.2.2.2.2.2.2.2.2.2.2 3 [0] (by decide) (by decide)⟩
  have h4 := h.2.2.2.2.2.2.2.2.2.2.2.2.2.1 1 0 0 1 0 80 []
    (by decide) (by decide) (by decide) (by decide)
  simpa using h4

/-- C2 witness: a concrete IPv4 socket address survives the
encode-decode round trip. -/
theorem write_addr_read_addr_roundtrip_witness :
    read_addr [1, 127, 0, 0, 1, 0, 80] = (.ok (.v4 ⟨⟨127, 0, 0, 1⟩, 80⟩), []) := by
  have h := write_addr_read_addr_roundtrip.1 ⟨⟨127, 0, 0, 1⟩, 80⟩ []
    [1, 127, 0, 0, 1, 0, 80] (by decide) (by decide) (by decide) (by decide)
    (by decide) rfl
  simpa using h

/-- C8: `socks5Bind` stores the first reply's decoded address as the
listener's `proxy_addr`, and `accept` decodes a second reply on the same
connection and returns a session whose `proxy_addr` is the second
reply's address — not the first reply's whenever the two differ. -/
theorem socks5_bind_accept (target : TargetAddr) (ab rest rest2 : List Nat)
    (a1 a2 : SocketAddr)
    (hw : write_addr target = .ok ab)
    (h1 : (read_response rest).1 = .ok a1)
    (h2 : (read_response rest2).1 = .ok a2) :
    (socks5Bind target (5 :: 0 :: rest)).1 = .ok ⟨⟨a1⟩⟩
    ∧ Socks5Listener.accept ⟨⟨a1⟩⟩ rest2 = .ok ⟨a2⟩
    ∧ (a1 ≠ a2 → Socks5Listener.accept ⟨⟨a1⟩⟩ rest2 ≠ .ok ⟨a1⟩) := by
  rcases hrr : read_response rest with ⟨res, rst⟩
  rw [hrr] at h1
  simp only at h1
  subst h1
  rcases hrr2 : read_response rest2 with ⟨res2, rst2⟩
  rw [hrr2] at h2
  simp only at h2
  subst h2
  refine ⟨?_, ?_, ?_⟩
  · simp only [socks5Bind, socks5ConnectRaw, readU8]
    rw [if_neg (by simp)]
    simp only [hw, hrr]
  · simp only [Socks5Listener.accept, hrr2]
  · intro hne
    simp only [Socks5Listener.accept, hrr2, ne_eq, Except.ok.injEq,
      Socks5Stream.mk.injEq]
    exact fun he => hne he.symm

/-- C8 witness: a concrete BIND flow where the two replies decode to
different addresses. -/
theorem socks5_bind_accept_witness :
    (socks5Bind (.ip (.v4 ⟨⟨127, 0, 0, 1⟩, 9⟩))
      [5, 0, 5, 0, 0, 1, 10, 0, 0, 1, 0, 80]).1 =
      .ok ⟨⟨.v4 ⟨⟨10, 0, 0, 1⟩, 80⟩⟩⟩
    ∧ Socks5Listener.accept ⟨⟨.v4 ⟨⟨10, 0, 0, 1⟩, 80⟩⟩⟩
        [5, 0, 0, 1, 10, 0, 0, 2, 4, 210] = .ok ⟨.v4 ⟨⟨10, 0, 0, 2⟩, 1234⟩⟩ := by
  have h := socks5_bind_accept (.ip (.v4 ⟨⟨127, 0, 0, 1⟩, 9⟩))
    [1, 127, 0, 0, 1, 0, 9] [5, 0, 0, 1, 10, 0, 0, 1, 0, 80]
    [5, 0, 0, 1, 10, 0, 0, 2, 4, 210]
    (.v4 ⟨⟨10, 0, 0, 1⟩, 80⟩) (.v4 ⟨⟨10, 0, 0, 2⟩, 1234⟩) rfl rfl rfl
  exact ⟨h.1, h.2.1⟩

/-- C3 counterexample: a relay datagram with a 2-byte payload received
into a 1-byte buffer does not make `recv_from` fail: it truncates,
returning count 1 and the decoded source address. -/
theorem datagram_recv_truncation_counterexample :
    (1 < 2)
    ∧ Socks5Datagram.recv_from ⟨⟨.v4 ⟨⟨0, 0, 0, 0⟩, 0⟩⟩⟩ [0]
        [0, 0, 0, 1, 127, 0, 0, 1, 0, 80, 9, 9] =
      .ok ((1, .v4 ⟨⟨127, 0, 0, 1⟩, 80⟩), [9]) := by
  exact ⟨by decide, rfl⟩

/-- C3 amended: for a received relay datagram with zero reserved bytes,
zero fragment byte and a decodable source address (and no OS-level
truncation), `recv_from` copies `min payload buffer` bytes and returns
that count with the address: when the buffer is large enough it copies
exactly the remaining payload and returns its length; when the buffer is
smaller it does NOT fail — it truncates to the buffer's length. -/
theorem datagram_recv_behavior (d : Socks5Datagram) (buf rest payload : List Nat)
    (addr : SocketAddr)
    (hrest : read_addr rest = (.ok addr, payload))
    (hlen : 3 + rest.length ≤ buf.length + 263) :
    Socks5Datagram.recv_from d buf (0 :: 0 :: 0 :: rest) =
      .ok ((min payload.length buf.length, addr),
        payload.take (min payload.length buf.length)
          ++ buf.drop (min payload.length buf.length))
    ∧ (payload.length ≤ buf.length →
      Socks5Datagram.recv_from d buf (0 :: 0 :: 0 :: rest) =
        .ok ((payload.length, addr), payload ++ buf.drop payload.length))
    ∧ (buf.length < payload.length →
      Socks5Datagram.recv_from d buf (0 :: 0 :: 0 :: rest) =
        .ok ((buf.length, addr), payload.take buf.length)) := by
  have hmin : min (0 :: 0 :: 0 :: rest).length (buf.length + MAX_ADDR_LEN + 3) =
      (0 :: 0 :: 0 :: rest).length := by
    simp only [List.length_cons, MAX_ADDR_LEN]
    omega
  have hmain : Socks5Datagram.recv_from d buf (0 :: 0 :: 0 :: rest) =
      .ok ((min payload.length buf.length, addr),
        payload.take (min payload.length buf.length)
          ++ buf.drop (min payload.length buf.length)) := by
    simp only [Socks5Datagram.recv_from, hmin, List.take_length, readU16BE, readU8,
      hrest]
    rfl
  refine ⟨hmain, ?_, ?_⟩
  · intro hle
    rw [hmain, Nat.min_eq_left hle, List.take_length]
  · intro hlt
    rw [hmain, Nat.min_eq_right (Nat.le_of_lt hlt), List.drop_length,
      List.append_nil]

/-- C3 amended witness: large-enough buffer (payload 2 into buffer 3)
and small buffer (payload 2 into buffer 1). -/
theorem datagram_recv_behavior_witness :
    Socks5Datagram.recv_from ⟨⟨.v4 ⟨⟨0, 0, 0, 0⟩, 0⟩⟩⟩ [7, 7, 7]
        [0, 0, 0, 1, 127, 0, 0, 1, 0, 80, 9, 9] =
      .ok ((2, .v4 ⟨⟨127, 0, 0, 1⟩, 80⟩), [9, 9, 7])
    ∧ Socks5Datagram.recv_from ⟨⟨.v4 ⟨⟨0, 0, 0, 0⟩, 0⟩⟩⟩ [7]
        [0, 0, 0, 1, 127, 0, 0, 1, 0, 80, 9, 9] =
      .ok ((1, .v4 ⟨⟨127, 0, 0, 1⟩, 80⟩), [9]) := by
  constructor
  · have h := (datagram_recv_behavior ⟨⟨.v4 ⟨⟨0, 0, 0, 0⟩, 0⟩⟩⟩ [7, 7, 7]
      [1, 127, 0, 0, 1, 0, 80, 9, 9] [9, 9] (.v4 ⟨⟨127, 0, 0, 1⟩, 80⟩)
      rfl (by decide)).2.1 (by decide)
    simpa using h
  · have h := (datagram_recv_behavior ⟨⟨.v4 ⟨⟨0, 0, 0, 0⟩, 0⟩⟩⟩ [7]
      [1, 127, 0, 0, 1, 0, 80, 9, 9] [9, 9] (.v4 ⟨⟨127, 0, 0, 1⟩, 80⟩)
      rfl (by decide)).2.2 (by decide)
    simpa using h

/-- C9: `send_to` sends, as one datagram addressed to the stored
proxy-side relay endpoint `stream.proxy_addr` (and so not to an
ultimate target distinct from it), exactly the bytes: two zero reserved
bytes, a zero fragment byte, the `write_addr` encoding of the target,
then the payload unchanged. -/
theorem datagram_send_format (d : Socks5Datagram) (buf : List Nat)
    (addr : TargetAddr) (ab : List Nat) (hw : write_addr addr = .ok ab) :
    Socks5Datagram.send_to d buf addr =
      .ok ((0 :: 0 :: 0 :: (ab ++ buf)).length, 0 :: 0 :: 0 :: (ab ++ buf),
        d.stream.proxy_addr)
    ∧ (∀ sa : SocketAddr, addr = .ip sa → sa ≠ d.stream.proxy_addr →
      d.stream.proxy_addr ≠ sa) := by
  constructor
  · simp only [Socks5Datagram.send_to, hw]
    rfl
  · intro sa _ hne
    exact fun he => hne he.symm

/-- C9 witness: a concrete datagram to an IPv4 target. -/
theorem datagram_send_format_witness :
    Socks5Datagram.send_to ⟨⟨.v4 ⟨⟨10, 0, 0, 1⟩, 4000⟩⟩⟩ [42, 43]
      (.ip (.v4 ⟨⟨1, 2, 3, 4⟩, 80⟩)) =
      .ok (12, [0, 0, 0, 1, 1, 2, 3, 4, 0, 80, 42, 43],
        .v4 ⟨⟨10, 0, 0, 1⟩, 4000⟩) := by
  have h := (datagram_send_format ⟨⟨.v4 ⟨⟨10, 0, 0, 1⟩, 4000⟩⟩⟩ [42, 43]
    (.ip (.v4 ⟨⟨1, 2, 3, 4⟩, 80⟩)) [1, 1, 2, 3, 4, 0, 80] rfl).1
  simpa using h

/-- C10: the count returned by a successful `send_to` is the length of
the whole framed datagram — payload length plus 10 for an IPv4 target,
plus 22 for an IPv6 target, and plus `7 + domain length` for a domain
target — not the payload length alone. -/
theorem datagram_send_count (d : Socks5Datagram) (buf : List Nat) :
    (∀ a : SocketAddrV4,
      Except.map (fun r => r.1) (Socks5Datagram.send_to d buf (.ip (.v4 a))) =
        .ok (buf.length + 10))
    ∧ (∀ a : SocketAddrV6,
      Except.map (fun r => r.1) (Socks5Datagram.send_to d buf (.ip (.v6 a))) =
        .ok (buf.length + 22))
    ∧ (∀ (host : String) (port : Nat), (strBytes host).length ≤ 255 →
      Except.map (fun r => r.1) (Socks5Datagram.send_to d buf (.domain host port)) =
        .ok (buf.length + (7 + (strBytes host).length))) := by
  refine ⟨?_, ?_, ?_⟩
  · intro a
    simp only [Socks5Datagram.send_to, write_addr, writeU16BE, writeU32BE,
      Except.map, List.cons_append, List.length_cons, List.length_append,
      List.nil_append, List.length_nil]
  · intro a
    simp only [Socks5Datagram.send_to, write_addr, writeU16BE,
      Except.map, List.cons_append, List.length_cons, List.length_append,
      List.nil_append, List.length_nil]
  · intro host port hlen
    simp only [Socks5Datagram.send_to, write_addr]
    rw [if_neg (by omega)]
    simp only [Except.map, writeU16BE, List.cons_append, List.length_cons,
      List.length_append, List.nil_append, List.length_nil, Except.ok.injEq]
    omega

/-- C10 witness: an 11-byte domain target frames a 2-byte payload into a
20-byte datagram. -/
theorem datagram_send_count_witness :
    Except.map (fun r => r.1)
      (Socks5Datagram.send_to ⟨⟨.v4 ⟨⟨10, 0, 0, 1⟩, 4000⟩⟩⟩ [42, 43]
        (.domain "example.com" 80)) = .ok 20 := by
  have h := (datagram_send_count ⟨⟨.v4 ⟨⟨10, 0, 0, 1⟩, 4000⟩⟩⟩ [42, 43]).2.2
    "example.com" 80 (by decide)
  simpa using h

end Socks
